import Mathlib

/-!
Shallow embedding of `src/analytics/app.py` (jurachain analytics service).

The service is a FastAPI app over a DuckDB store with three append-only
tables (`document_events`, `blockchain_events`, `user_sessions`), two
insert endpoints and two read endpoints (`/analytics/user/{user_id}`,
`/analytics/system`).

Modelling conventions:
- A table is a `List` of row structures; the store is the triple of tables.
- SQL `NULL`able columns are `Option` fields; SQL `AVG`/`SUM` return
  `Option ℚ` / `Option ℤ` (`none` on zero non-null inputs), and the Python
  `x or 0` idiom at the response boundary is `orZero`.
- Timestamps are rationals measured in days (naive local time, as in the
  source); the DuckDB calendar-day truncation `DATE_TRUNC(day, t)` and
  `CURRENT_DATE` are `Int.floor`.
- The Python `round(x, 2)` is `round2`: round-half-to-even on `100 * x`,
  over exact rationals.
- Pydantic request models: a raw payload has every field optional; parsing
  succeeds iff every field the model declares as required is present.
  (Pydantic does not check strings for non-emptiness.)
- SQL `GROUP BY` produces one group per distinct key in first-occurrence
  (scan) order (`dedupFirst`); `ORDER BY` is modelled as `List.insertionSort`,
  a stable sort, so tie order among equal sort keys is the scan order —
  the SQL in the source specifies no tie-break.
- Generated `id` values (UUIDs) are not modelled: no query reads them.
  The `metadata` JSON blob is modelled as an opaque optional string.
-/

namespace Analytics

/-- A row of the `document_events` table (`CREATE TABLE` at app.py:17-30). -/
structure DocRow where
  user_id : String
  document_id : Option String
  event_type : String
  document_type : Option String
  ai_service : Option String
  duration_seconds : Option ℚ
  status : String
  metadata : Option String
  created_at : ℚ
deriving DecidableEq

/-- A row of the `blockchain_events` table (app.py:32-46). -/
structure BcRow where
  user_id : String
  document_id : Option String
  transaction_id : Option String
  network : String
  transaction_type : String
  duration_seconds : Option ℚ
  status : String
  gas_used : Option ℤ
  metadata : Option String
  created_at : ℚ
deriving DecidableEq

/-- A row of the `user_sessions` table (app.py:48-59); no query reads it. -/
structure SessRow where
  user_id : String
  session_start : ℚ
  session_end : Option ℚ
  ip_address : Option String
  user_agent : Option String
  actions_count : ℤ
  created_at : ℚ
deriving DecidableEq

/-- The DuckDB store: the three tables. -/
structure Store where
  document_events : List DocRow
  blockchain_events : List BcRow
  user_sessions : List SessRow
deriving DecidableEq

/-- SQL `AVG` over a nullable column: nulls are excluded; `NULL` (none)
when no non-null value remains. -/
def sqlAvg (l : List (Option ℚ)) : Option ℚ :=
  let v := l.filterMap id
  if v.isEmpty then none else some (v.sum / v.length)

/-- SQL `SUM` over a nullable integer column: nulls excluded, `NULL` when
no non-null value remains. -/
def sqlSum (l : List (Option ℤ)) : Option ℤ :=
  let v := l.filterMap id
  if v.isEmpty then none else some v.sum

/-- Model of the Python idiom `x or 0` applied to a possibly-`NULL` query result. -/
def orZero {α : Type} [Zero α] : Option α → α
  | none => 0
  | some x => x

/-- Round-half-to-even to the nearest integer (the tie rule of Python rounding). -/
def roundHalfEven (x : ℚ) : ℤ :=
  if Int.fract x < 1 / 2 then ⌊x⌋
  else if 1 / 2 < Int.fract x then ⌊x⌋ + 1
  else if 2 ∣ ⌊x⌋ then ⌊x⌋ else ⌊x⌋ + 1

/-- Model of Python `round(x, 2)`, over exact rationals. -/
def round2 (x : ℚ) : ℚ :=
  (roundHalfEven (100 * x) : ℚ) / 100

/-- Distinct elements of a list in first-occurrence order: the group keys a
single-pass SQL `GROUP BY` discovers, in scan order. -/
def dedupFirst {α : Type} [DecidableEq α] (l : List α) : List α :=
  l.foldl (fun acc x => if x ∈ acc then acc else acc ++ [x]) []

/-! ### Pydantic request models (app.py:62-81) and insert endpoints -/

/-- The pydantic `DocumentEvent` request model (app.py:62-70): required
fields `user_id`, `event_type`, `status`; the rest optional. -/
structure DocumentEvent where
  user_id : String
  document_id : Option String
  event_type : String
  document_type : Option String
  ai_service : Option String
  duration_seconds : Option ℚ
  status : String
  metadata : Option String
deriving DecidableEq

/-- An incoming JSON body for `POST /events/document`: every field may be
absent. -/
structure DocumentEventRaw where
  user_id : Option String
  document_id : Option String
  event_type : Option String
  document_type : Option String
  ai_service : Option String
  duration_seconds : Option ℚ
  status : Option String
  metadata : Option String
deriving DecidableEq

/-- Pydantic validation of a `DocumentEvent` body: each required field must
be present; presence is all that is checked (empty strings pass). -/
def parseDocumentEvent (r : DocumentEventRaw) : Option DocumentEvent :=
  match r.user_id, r.event_type, r.status with
  | some u, some e, some st =>
      some ⟨u, r.document_id, e, r.document_type, r.ai_service,
            r.duration_seconds, st, r.metadata⟩
  | _, _, _ => none

/-- The pydantic `BlockchainEvent` request model (app.py:72-81): required
fields `user_id`, `network`, `transaction_type`, `status`. -/
structure BlockchainEvent where
  user_id : String
  document_id : Option String
  transaction_id : Option String
  network : String
  transaction_type : String
  duration_seconds : Option ℚ
  status : String
  gas_used : Option ℤ
  metadata : Option String
deriving DecidableEq

/-- An incoming JSON body for `POST /events/blockchain`. -/
structure BlockchainEventRaw where
  user_id : Option String
  document_id : Option String
  transaction_id : Option String
  network : Option String
  transaction_type : Option String
  duration_seconds : Option ℚ
  status : Option String
  gas_used : Option ℤ
  metadata : Option String
deriving DecidableEq

/-- Pydantic validation of a `BlockchainEvent` body. -/
def parseBlockchainEvent (r : BlockchainEventRaw) : Option BlockchainEvent :=
  match r.user_id, r.network, r.transaction_type, r.status with
  | some u, some nw, some tt, some st =>
      some ⟨u, r.document_id, r.transaction_id, nw, tt,
            r.duration_seconds, st, r.gas_used, r.metadata⟩
  | _, _, _, _ => none

/-- The `INSERT INTO document_events` of `record_document_event`
(app.py:103-111); `created_at` is the server clock `t` at insert time. -/
def insertDocumentEvent (s : Store) (e : DocumentEvent) (t : ℚ) : Store :=
  { s with document_events := s.document_events ++
      [⟨e.user_id, e.document_id, e.event_type, e.document_type,
        e.ai_service, e.duration_seconds, e.status, e.metadata, t⟩] }

/-- The `INSERT INTO blockchain_events` of `record_blockchain_event`
(app.py:120-128). -/
def insertBlockchainEvent (s : Store) (e : BlockchainEvent) (t : ℚ) : Store :=
  { s with blockchain_events := s.blockchain_events ++
      [⟨e.user_id, e.document_id, e.transaction_id, e.network,
        e.transaction_type, e.duration_seconds, e.status, e.gas_used,
        e.metadata, t⟩] }

/-- Endpoint `POST /events/document` end to end: FastAPI/pydantic validation, then
the insert. `none` models the 422 validation rejection (store untouched). -/
def recordDocumentEvent (s : Store) (r : DocumentEventRaw) (t : ℚ) :
    Option Store :=
  (parseDocumentEvent r).map (fun e => insertDocumentEvent s e t)

/-- Endpoint `POST /events/blockchain` end to end. -/
def recordBlockchainEvent (s : Store) (r : BlockchainEventRaw) (t : ℚ) :
    Option Store :=
  (parseBlockchainEvent r).map (fun e => insertBlockchainEvent s e t)

/-! ### The `/analytics/user/{user_id}` queries (app.py:133-225) -/

/-- Selection `FROM document_events WHERE user_id = ?`. -/
def docRows (s : Store) (uid : String) : List DocRow :=
  s.document_events.filter (fun r => decide (r.user_id = uid))

/-- Selection `FROM blockchain_events WHERE user_id = ?`. -/
def bcRows (s : Store) (uid : String) : List BcRow :=
  s.blockchain_events.filter (fun r => decide (r.user_id = uid))

/-- The `documents` block of the user-analytics response (app.py:198-204). -/
structure DocumentsSummary where
  total : ℕ
  successful : ℕ
  failed : ℕ
  avg_generation_time : ℚ
  status_changes : ℕ
deriving DecidableEq

/-- The document-statistics query (app.py:138-147) shaped into the response
(app.py:198-204): counts, null-excluding average rounded to 2 decimals. -/
def documentsSummary (s : Store) (uid : String) : DocumentsSummary :=
  let rows := docRows s uid
  { total := rows.length
    successful := (rows.filter (fun r => decide (r.status = "success"))).length
    failed := (rows.filter (fun r => decide (r.status = "error"))).length
    avg_generation_time :=
      round2 (orZero (sqlAvg (rows.map (fun r => r.duration_seconds))))
    status_changes :=
      (rows.filter (fun r => decide (r.event_type = "status_change"))).length }

/-- The unsorted groups of the document-type distribution (app.py:150-158):
non-null `document_type` values grouped in scan order with their counts. -/
def docTypeGroups (s : Store) (uid : String) : List (String × ℕ) :=
  let ts := (docRows s uid).filterMap (fun r => r.document_type)
  (dedupFirst ts).map (fun t => (t, ts.count t))

/-- The `document_types` list of the response: groups ordered by
`ORDER BY count DESC` (no tie-break clause in the SQL). -/
def documentTypes (s : Store) (uid : String) : List (String × ℕ) :=
  List.insertionSort (fun p q => q.2 ≤ p.2) (docTypeGroups s uid)

/-- The row restriction of the recent-activity query (app.py:161-171):
`WHERE user_id = ? AND created_at >= CURRENT_DATE - INTERVAL 30 days`,
where `CURRENT_DATE` is the calendar-day truncation of the query time. -/
def recentRows (s : Store) (uid : String) (now : ℚ) : List DocRow :=
  s.document_events.filter (fun r =>
    decide (r.user_id = uid) &&
    decide (((⌊now⌋ : ℤ) : ℚ) - 30 ≤ r.created_at))

/-- The `recent_activity` list: groups of `(event_type, day)` with counts,
ordered by day descending, capped at 30 (app.py:161-171, 208-211). -/
def recentActivity (s : Store) (uid : String) (now : ℚ) :
    List (String × ℤ × ℕ) :=
  let rows := recentRows s uid now
  let keys := dedupFirst (rows.map (fun r => (r.event_type, ⌊r.created_at⌋)))
  (List.insertionSort (fun p q : String × ℤ × ℕ => q.2.1 ≤ p.2.1)
    (keys.map (fun k =>
      (k.1, k.2,
        (rows.filter (fun r =>
          decide ((r.event_type, ⌊r.created_at⌋) = k))).length)))).take 30

/-- The `blockchain` block of the user-analytics response (app.py:212-217). -/
structure BlockchainSummary where
  total_transactions : ℕ
  successful_transactions : ℕ
  avg_transaction_time : ℚ
  total_gas_used : ℤ
deriving DecidableEq

/-- The blockchain-statistics query (app.py:174-182) shaped into the
response (app.py:212-217). -/
def blockchainSummary (s : Store) (uid : String) : BlockchainSummary :=
  let rows := bcRows s uid
  { total_transactions := rows.length
    successful_transactions :=
      (rows.filter (fun r => decide (r.status = "success"))).length
    avg_transaction_time :=
      round2 (orZero (sqlAvg (rows.map (fun r => r.duration_seconds))))
    total_gas_used := orZero (sqlSum (rows.map (fun r => r.gas_used))) }

/-- The `performance_trend` list (app.py:185-194, 218-224): trailing 7-day
window, grouped by day, per-day rounded average duration and count, ordered
by day ascending. -/
def performanceTrend (s : Store) (uid : String) (now : ℚ) :
    List (ℤ × ℚ × ℕ) :=
  let rows := s.document_events.filter (fun r =>
    decide (r.user_id = uid) &&
    decide (((⌊now⌋ : ℤ) : ℚ) - 7 ≤ r.created_at))
  let days := dedupFirst (rows.map (fun r => ⌊r.created_at⌋))
  List.insertionSort (fun p q : ℤ × ℚ × ℕ => p.1 ≤ q.1)
    (days.map (fun d =>
      let dayRows := rows.filter (fun r => decide (⌊r.created_at⌋ = d))
      (d, round2 (orZero (sqlAvg (dayRows.map (fun r => r.duration_seconds)))),
        dayRows.length)))

/-! ### The `/analytics/system` query (app.py:229-249) -/

/-- The system-analytics response (app.py:243-249). -/
structure SystemSummary where
  total_users : ℕ
  total_documents : ℕ
  total_transactions : ℕ
  avg_document_generation_time : ℚ
  avg_blockchain_transaction_time : ℚ
deriving DecidableEq

/-- Handler `get_system_analytics` (app.py:229-249): the five subqueries of the
system statistics, shaped into the response. Note: the two averages are
returned without `round` (unlike the user-level averages), and
`total_users` is `COUNT(DISTINCT user_id) FROM document_events` only. -/
def getSystemAnalytics (s : Store) : SystemSummary :=
  { total_users := (s.document_events.map (fun r => r.user_id)).dedup.length
    total_documents :=
      (s.document_events.filter
        (fun r => decide (r.event_type = "generation"))).length
    total_transactions := s.blockchain_events.length
    avg_document_generation_time :=
      orZero (sqlAvg ((s.document_events.filter (fun r =>
        decide (r.event_type = "generation") && decide (r.status = "success"))).map
          (fun r => r.duration_seconds)))
    avg_blockchain_transaction_time :=
      orZero (sqlAvg ((s.blockchain_events.filter (fun r =>
        decide (r.status = "success"))).map (fun r => r.duration_seconds))) }

/-! ### Schema initialization (`init_database`, app.py:15-59) -/

/-- One column of a `CREATE TABLE` statement: name, SQL type, and the
trailing modifier (`NOT NULL` / `DEFAULT ...` / none). -/
structure ColumnDef where
  name : String
  sqlType : String
  modifier : String
deriving DecidableEq

/-- A table of the catalog: its name, column definitions, and row count. -/
structure TableDef where
  name : String
  columns : List ColumnDef
  rowCount : ℕ
deriving DecidableEq

/-- The database catalog: the list of existing tables. -/
abbrev Catalog : Type := List TableDef

/-- Columns of `document_events` (app.py:17-30). -/
def documentEventsColumns : List ColumnDef :=
  [⟨"id", "UUID", "DEFAULT gen_random_uuid()"⟩,
   ⟨"user_id", "UUID", "NOT NULL"⟩,
   ⟨"document_id", "UUID", ""⟩,
   ⟨"event_type", "VARCHAR", "NOT NULL"⟩,
   ⟨"document_type", "VARCHAR", ""⟩,
   ⟨"ai_service", "VARCHAR", ""⟩,
   ⟨"duration_seconds", "FLOAT", ""⟩,
   ⟨"status", "VARCHAR", "NOT NULL"⟩,
   ⟨"metadata", "JSON", ""⟩,
   ⟨"created_at", "TIMESTAMP", "DEFAULT CURRENT_TIMESTAMP"⟩]

/-- Columns of `blockchain_events` (app.py:32-46). -/
def blockchainEventsColumns : List ColumnDef :=
  [⟨"id", "UUID", "DEFAULT gen_random_uuid()"⟩,
   ⟨"user_id", "UUID", "NOT NULL"⟩,
   ⟨"document_id", "UUID", ""⟩,
   ⟨"transaction_id", "VARCHAR", ""⟩,
   ⟨"network", "VARCHAR", "NOT NULL"⟩,
   ⟨"transaction_type", "VARCHAR", "NOT NULL"⟩,
   ⟨"duration_seconds", "FLOAT", ""⟩,
   ⟨"status", "VARCHAR", "NOT NULL"⟩,
   ⟨"gas_used", "BIGINT", ""⟩,
   ⟨"metadata", "JSON", ""⟩,
   ⟨"created_at", "TIMESTAMP", "DEFAULT CURRENT_TIMESTAMP"⟩]

/-- Columns of `user_sessions` (app.py:48-59). -/
def userSessionsColumns : List ColumnDef :=
  [⟨"id", "UUID", "DEFAULT gen_random_uuid()"⟩,
   ⟨"user_id", "UUID", "NOT NULL"⟩,
   ⟨"session_start", "TIMESTAMP", "NOT NULL"⟩,
   ⟨"session_end", "TIMESTAMP", ""⟩,
   ⟨"ip_address", "VARCHAR", ""⟩,
   ⟨"user_agent", "VARCHAR", ""⟩,
   ⟨"actions_count", "INTEGER", "DEFAULT 0"⟩,
   ⟨"created_at", "TIMESTAMP", "DEFAULT CURRENT_TIMESTAMP"⟩]

/-- Whether the catalog already has a table of the given name. -/
def tableExists (db : Catalog) (nm : String) : Bool :=
  db.any (fun t => t.name == nm)

/-- Statement `CREATE TABLE IF NOT EXISTS`: a no-op when a table of that name exists,
otherwise appends the new empty table. -/
def createTableIfNotExists (nm : String) (cols : List ColumnDef)
    (db : Catalog) : Catalog :=
  if tableExists db nm then db else db ++ [⟨nm, cols, 0⟩]

/-- Function `init_database` (app.py:15-59): the three `CREATE TABLE IF NOT EXISTS`
statements, in source order. -/
def init_database (db : Catalog) : Catalog :=
  createTableIfNotExists "user_sessions" userSessionsColumns
    (createTableIfNotExists "blockchain_events" blockchainEventsColumns
      (createTableIfNotExists "document_events" documentEventsColumns db))

/-! ### Concrete stores and payloads used as witnesses and counterexamples -/

/-- The empty store (fresh database). -/
def emptyStore : Store := ⟨[], [], []⟩

/-- A document row template: user `u`, a `generation` success with no
optional fields, created at time `t` (days). -/
def mkDocRow (u : String) (et : String) (st : String) (d : Option ℚ)
    (t : ℚ) : DocRow :=
  ⟨u, none, et, none, none, d, st, none, t⟩

/-- A blockchain row template. -/
def mkBcRow (u : String) (st : String) (d : Option ℚ) (g : Option ℤ)
    (t : ℚ) : BcRow :=
  ⟨u, none, none, "polygon", "anchor", d, st, g, none, t⟩

/-- Store for the C1 counterexample: three blockchain events from three
distinct users and no document events. -/
def storeC1 : Store :=
  ⟨[],
   [mkBcRow "a" "success" none none 0,
    mkBcRow "b" "success" none none 0,
    mkBcRow "c" "success" none none 0],
   []⟩

/-- Store for the C3 counterexample: two document events for user `u` whose
document types `b` and `a` both occur once, `b` first in scan order. -/
def storeC3 : Store :=
  ⟨[{ mkDocRow "u" "generation" "success" none 0 with document_type := some "b" },
    { mkDocRow "u" "generation" "success" none 0 with document_type := some "a" }],
   [], []⟩

/-- Store for the C4 counterexample: one successful `generation` document
event with duration 1.239 s, whose system-wide average no rounding touches. -/
def storeC4 : Store :=
  ⟨[mkDocRow "u" "generation" "success" (some (1239 / 1000)) 0], [], []⟩

/-- Store for C5: a single document event for user `u` created at day 70,
i.e. 30.5 days before the query time `now = 100.5`. -/
def storeC5 : Store := ⟨[mkDocRow "u" "generation" "success" none 70], [], []⟩

/-- Store for the C5 witness: one event 31.5 days old and one 28.5 days old
at query time `now = 100.5`. -/
def storeC5w : Store :=
  ⟨[mkDocRow "u" "generation" "success" none 69,
    mkDocRow "u" "generation" "success" none 72], [], []⟩

/-- Store for the C6 witness: two blockchain events for `u`, one with
duration 4.0 and one with a null duration. -/
def storeC6 : Store :=
  ⟨[], [mkBcRow "u" "success" (some 4) none 0,
        mkBcRow "u" "error" none none 0], []⟩

/-- The C2 payload: `status="success"`, `event_type="generation"`,
`duration_seconds=2.5`, `user_id="U1"`. -/
def payloadC2 : DocumentEventRaw :=
  ⟨some "U1", none, some "generation", none, none, some (5 / 2),
   some "success", none⟩

/-- Payload for the C8 counterexample: all required fields present but `status`
is the empty string. -/
def payloadC8 : DocumentEventRaw :=
  ⟨some "00000000-0000-0000-0000-000000000001", none, some "generation",
   none, none, none, some "", none⟩

/-- A document payload missing its required `status` field. -/
def payloadMissingStatus : DocumentEventRaw :=
  ⟨some "u", none, some "generation", none, none, none, none, none⟩

/-- A blockchain payload missing its required `network` field. -/
def payloadMissingNetwork : BlockchainEventRaw :=
  ⟨some "u", none, none, none, some "anchor", none, some "success",
   none, none⟩

/-- Store for the C4 witness: one document event with duration 2.5 s at day 0. -/
def storeC4w : Store :=
  ⟨[mkDocRow "u" "generation" "success" (some (5 / 2)) 0], [], []⟩


/-! ### Helper lemmas -/

/-- Round-half-even of an integer is that integer. -/
theorem roundHalfEven_intCast (n : ℤ) : roundHalfEven (n : ℚ) = n := by
  rw [roundHalfEven, Int.fract_intCast]
  norm_num

/-- A rational that is an integer number of hundredths is a fixed point of
`round2`. -/
theorem round2_eq_self {x : ℚ} {n : ℤ} (h : (100 : ℚ) * x = (n : ℚ)) :
    round2 x = x := by
  rw [round2, h, roundHalfEven_intCast, ← h]
  field_simp

/-- Applying `round2` twice equals applying it once. -/
theorem round2_idem (x : ℚ) : round2 (round2 x) = round2 x := by
  refine round2_eq_self (n := roundHalfEven (100 * x)) ?_
  rw [round2]
  field_simp

/-- Evaluation fact `round2 0 = 0`. -/
theorem round2_zero : round2 0 = 0 :=
  round2_eq_self (n := 0) (by norm_num)

/-- Evaluation fact `round2 (5/2) = 5/2`. -/
theorem round2_five_halves : round2 (5 / 2) = 5 / 2 :=
  round2_eq_self (n := 250) (by norm_num)

/-- Evaluation fact `round2 4 = 4`. -/
theorem round2_four : round2 4 = 4 :=
  round2_eq_self (n := 400) (by norm_num)

/-- Rounding moves `1.239`, so `1.239` is not a 2-decimal value. -/
theorem round2_ne_1239 : round2 (1239 / 1000) ≠ 1239 / 1000 := by
  have hfl : ⌊(1239 / 10 : ℚ)⌋ = 123 := by
    rw [Int.floor_eq_iff]
    constructor <;> norm_num
  have h1 : (100 : ℚ) * (1239 / 1000) = 1239 / 10 := by norm_num
  have : round2 (1239 / 1000) = 31 / 25 := by
    rw [round2, h1, roundHalfEven, Int.fract, hfl]
    norm_num
  rw [this]
  norm_num



/-! ### Schema idempotence helpers -/

theorem tableExists_create_self (nm : String) (cols : List ColumnDef)
    (db : Catalog) :
    tableExists (createTableIfNotExists nm cols db) nm = true := by
  rw [createTableIfNotExists]
  split
  · assumption
  · simp [tableExists]

theorem tableExists_create_mono {db : Catalog} {nm : String}
    (nm2 : String) (cols : List ColumnDef)
    (h : tableExists db nm = true) :
    tableExists (createTableIfNotExists nm2 cols db) nm = true := by
  rw [createTableIfNotExists]
  split
  · exact h
  · simp only [tableExists] at h ⊢
    simp [List.any_append, h]

theorem create_of_exists {db : Catalog} {nm : String}
    (cols : List ColumnDef) (h : tableExists db nm = true) :
    createTableIfNotExists nm cols db = db := by
  rw [createTableIfNotExists, if_pos h]

theorem init_database_idem (db : Catalog) :
    init_database (init_database db) = init_database db := by
  have hde : tableExists (init_database db) "document_events" = true := by
    rw [init_database]
    exact tableExists_create_mono _ _ (tableExists_create_mono _ _
      (tableExists_create_self _ _ _))
  have hbc0 : tableExists (init_database db) "blockchain_events" = true := by
    rw [init_database]
    exact tableExists_create_mono _ _ (tableExists_create_self _ _ _)
  have hus0 : tableExists (init_database db) "user_sessions" = true := by
    rw [init_database]
    exact tableExists_create_self _ _ _
  conv_lhs => rw [init_database]
  rw [create_of_exists _ hde]
  rw [create_of_exists _ hbc0]
  rw [create_of_exists _ hus0]

/-- Claim C9: `init_database` is idempotent — any number of further calls after
the first leave the catalog (table set, column definitions, row counts)
unchanged. -/
theorem init_database_iterate (db : Catalog) (n : ℕ) :
    Nat.iterate init_database n (init_database db) = init_database db := by
  induction n with
  | zero => rfl
  | succ k ih =>
    rw [Function.iterate_succ_apply, init_database_idem, ih]



/-- Claim C1 counterexample: three blockchain events from three distinct users
and no document events give `total_users = 0`, not 3. -/
theorem total_users_ignores_blockchain_users :
    (getSystemAnalytics storeC1).total_users = 0 ∧
    (storeC1.blockchain_events.map (fun r => r.user_id)).dedup.length = 3 ∧
    (0 : ℕ) ≠ 3 := by decide

/-- Claim C1 amended: `total_users` is the number of distinct `user_id` values in
the `document_events` table only. -/
theorem total_users_distinct_document_users (s : Store) :
    (getSystemAnalytics s).total_users =
      ((s.document_events.map (fun r => r.user_id)).toFinset).card := by
  simp [getSystemAnalytics, List.card_toFinset]

/-- Claim C3 counterexample: two types with equal counts, scanned `b` before `a`,
are emitted `b` first — the tie is not broken by `document_type` ascending. -/
theorem documentTypes_tie_not_alphabetical :
    documentTypes storeC3 "u" = [("b", 1), ("a", 1)] ∧
    documentTypes storeC3 "u" ≠ [("a", 1), ("b", 1)] := by decide

/-- Claim C3 amended: the distribution is ordered descending by count; the order
is the deterministic stable sort of the scan-order groups, so count ties
keep first-occurrence order rather than `document_type` ascending. -/
theorem documentTypes_sorted_desc (s : Store) (uid : String) :
    List.Sorted (fun p q : String × ℕ => q.2 ≤ p.2) (documentTypes s uid) ∧
    List.Perm (documentTypes s uid) (docTypeGroups s uid) := by
  constructor
  · exact @List.sorted_insertionSort (String × ℕ) (fun p q => q.2 ≤ p.2) _
      ⟨fun a b => Nat.le_total b.2 a.2⟩
      ⟨fun _ _ _ hab hbc => le_trans hbc hab⟩ (docTypeGroups s uid)
  · exact List.perm_insertionSort _ _

/-- Claim C10: `successful` and `failed` count disjoint status buckets inside the
rows counted by `total`, so their sum never exceeds `total`. -/
theorem successful_add_failed_le_total (s : Store) (uid : String) :
    (documentsSummary s uid).successful + (documentsSummary s uid).failed ≤
      (documentsSummary s uid).total := by
  simp only [documentsSummary]
  induction docRows s uid with
  | nil => simp
  | cons a l ih =>
    by_cases hp : a.status = "success"
    · have hq : ¬(a.status = "error") := by rw [hp]; decide
      simp [List.filter_cons, hp, hq]
      omega
    · by_cases hq : a.status = "error"
      · simp [List.filter_cons, hp, hq]
        omega
      · simp only [List.filter_cons, List.length_cons]
        rw [if_neg (by simpa using hp), if_neg (by simpa using hq)]
        omega



/-- Claim C8 counterexample: a payload whose required `status` field is the empty
string passes validation and is stored — the store does not stay unchanged. -/
theorem empty_status_reaches_storage :
    recordDocumentEvent emptyStore payloadC8 0 =
      some ⟨[⟨"00000000-0000-0000-0000-000000000001", none, "generation",
              none, none, none, "", none, 0⟩], [], []⟩ ∧
    recordDocumentEvent emptyStore payloadC8 0 ≠ some emptyStore := by
  constructor
  · rfl
  · intro h
    simp [recordDocumentEvent, parseDocumentEvent, payloadC8,
      insertDocumentEvent, emptyStore] at h

/-- Claim C8 amended: a payload missing a required field (absent, rather than
empty) is rejected by pydantic validation before any insert runs; empty
strings are not checked. -/
theorem record_rejects_missing_required (s : Store) (t : ℚ)
    (rd : DocumentEventRaw) (rb : BlockchainEventRaw) :
    (rd.user_id = none ∨ rd.event_type = none ∨ rd.status = none →
      recordDocumentEvent s rd t = none) ∧
    (rb.user_id = none ∨ rb.network = none ∨ rb.transaction_type = none ∨
      rb.status = none → recordBlockchainEvent s rb t = none) := by
  constructor
  · intro h
    obtain ⟨u, d, e, dt, a, ds, st, m⟩ := rd
    cases u <;> cases e <;> cases st <;>
      simp_all [recordDocumentEvent, parseDocumentEvent]
  · intro h
    obtain ⟨u, d, ti, nw, tt, ds, st, g, m⟩ := rb
    cases u <;> cases nw <;> cases tt <;> cases st <;>
      simp_all [recordBlockchainEvent, parseBlockchainEvent]

/-- Claim C8 witness: the amended rejection at two concrete payloads. -/
theorem record_rejects_missing_required_witness :
    recordDocumentEvent emptyStore payloadMissingStatus 0 = none ∧
    recordBlockchainEvent emptyStore payloadMissingNetwork 0 = none :=
  ⟨(record_rejects_missing_required emptyStore 0 payloadMissingStatus
      payloadMissingNetwork).1 (Or.inr (Or.inr rfl)),
   (record_rejects_missing_required emptyStore 0 payloadMissingStatus
      payloadMissingNetwork).2 (Or.inr (Or.inl rfl))⟩



/-- Claim C5 counterexample: at query time `now = 100.5` (days), the event created
at day 70 — 30.5 days in the past, outside the trailing 30-day window ending
at `now` — is still included, because the cutoff is midnight-anchored. -/
theorem recentRows_includes_event_outside_trailing_window :
    (mkDocRow "u" "generation" "success" none 70 ∈
        recentRows storeC5 "u" (201 / 2)) ∧
    (mkDocRow "u" "generation" "success" none 70).created_at <
      201 / 2 - 30 := by
  have hfl : ⌊(201 / 2 : ℚ)⌋ = 100 := by
    rw [Int.floor_eq_iff]
    constructor <;> norm_num
  constructor
  · rw [recentRows, List.mem_filter]
    refine ⟨by simp [storeC5], ?_⟩
    simp only [Bool.and_eq_true, decide_eq_true_eq]
    refine ⟨rfl, ?_⟩
    rw [hfl]
    norm_num [mkDocRow]
  · norm_num [mkDocRow]

/-- Claim C5 amended: the query keeps exactly the rows with
`created_at ≥ CURRENT_DATE − 30 days` (a midnight-anchored cutoff); events
31 days in the past are therefore always excluded and events 29 days in the
past always included, for every store state and query time. -/
theorem recentRows_window (s : Store) (uid : String) (now : ℚ) (r : DocRow)
    (hmem : r ∈ s.document_events) (huid : r.user_id = uid) :
    (r.created_at ≤ now - 31 → r ∉ recentRows s uid now) ∧
    (now - 29 ≤ r.created_at → r ∈ recentRows s uid now) := by
  constructor
  · intro hold hin
    rw [recentRows, List.mem_filter] at hin
    have hcond := hin.2
    simp only [Bool.and_eq_true, decide_eq_true_eq] at hcond
    have h2 : now - 1 < (⌊now⌋ : ℚ) := Int.sub_one_lt_floor now
    have h1 : ((⌊now⌋ : ℤ) : ℚ) - 30 ≤ r.created_at := hcond.2
    linarith
  · intro hnew
    rw [recentRows, List.mem_filter]
    refine ⟨hmem, ?_⟩
    simp only [Bool.and_eq_true, decide_eq_true_eq]
    refine ⟨huid, ?_⟩
    have h3 : ((⌊now⌋ : ℤ) : ℚ) ≤ now := Int.floor_le now
    linarith

/-- Claim C5 witness: at `now = 100.5`, the event 31.5 days old is excluded and
the event 28.5 days old is included. -/
theorem recentRows_window_witness :
    (mkDocRow "u" "generation" "success" none 69 ∉
        recentRows storeC5w "u" (201 / 2)) ∧
    (mkDocRow "u" "generation" "success" none 72 ∈
        recentRows storeC5w "u" (201 / 2)) :=
  ⟨(recentRows_window storeC5w "u" (201 / 2) _
      (by simp [storeC5w]) rfl).1 (by norm_num [mkDocRow]),
   (recentRows_window storeC5w "u" (201 / 2) _
      (by simp [storeC5w]) rfl).2 (by norm_num [mkDocRow])⟩



/-- Claim C2: inserting the `generation`/`success`/2.5 s event for `U1` into any
store with no document events for `U1`, then reading the user summary,
yields total 1, successful 1, failed 0, average 2.5, status changes 0. -/
theorem insert_then_read_summary (s : Store) (t : ℚ)
    (h : ∀ r ∈ s.document_events, r.user_id ≠ "U1") :
    ∃ s2, recordDocumentEvent s payloadC2 t = some s2 ∧
      documentsSummary s2 "U1" = ⟨1, 1, 0, 5 / 2, 0⟩ := by
  refine ⟨insertDocumentEvent s
    ⟨"U1", none, "generation", none, none, some (5 / 2), "success", none⟩ t,
    rfl, ?_⟩
  have hrows : docRows (insertDocumentEvent s
      ⟨"U1", none, "generation", none, none, some (5 / 2), "success", none⟩ t)
      "U1" = [⟨"U1", none, "generation", none, none, some (5 / 2), "success",
        none, t⟩] := by
    rw [docRows, insertDocumentEvent]
    simp only [List.filter_append]
    rw [List.filter_eq_nil_iff.mpr (by simpa using h)]
    simp
  simp only [documentsSummary, hrows]
  simp [sqlAvg, orZero, round2_five_halves]

/-- Claim C2 witness: the round trip on the empty store. -/
theorem insert_then_read_summary_witness :
    ∃ s2, recordDocumentEvent emptyStore payloadC2 0 = some s2 ∧
      documentsSummary s2 "U1" = ⟨1, 1, 0, 5 / 2, 0⟩ :=
  insert_then_read_summary emptyStore 0 (by simp [emptyStore])



/-- Claim C6: when the blockchain events of a user carry durations 4.0 and NULL (in
either scan order), the average transaction time is 4.0, not 2.0 — `AVG`
excludes NULL rows from both sum and denominator. -/
theorem avg_transaction_time_excludes_null (s : Store) (uid : String)
    (h : (bcRows s uid).map (fun r => r.duration_seconds) = [some 4, none] ∨
      (bcRows s uid).map (fun r => r.duration_seconds) = [none, some 4]) :
    (blockchainSummary s uid).avg_transaction_time = 4 ∧
    (blockchainSummary s uid).avg_transaction_time ≠ 2 := by
  have havg : (blockchainSummary s uid).avg_transaction_time = 4 := by
    simp only [blockchainSummary]
    rcases h with h | h <;>
      · rw [h]
        simp [sqlAvg, orZero, round2_four]
  refine ⟨havg, ?_⟩
  rw [havg]
  norm_num

/-- Claim C6 witness: the two-event store. -/
theorem avg_transaction_time_excludes_null_witness :
    (blockchainSummary storeC6 "u").avg_transaction_time = 4 ∧
    (blockchainSummary storeC6 "u").avg_transaction_time ≠ 2 :=
  avg_transaction_time_excludes_null storeC6 "u"
    (Or.inl (by simp [storeC6, bcRows, mkBcRow]))

/-- Claim C7: a user with no events in either event table gets a fully zero
documents summary and blockchain summary and empty distribution, activity
and trend lists — never a null/missing field and never an error. -/
theorem user_analytics_zero_rows (s : Store) (uid : String) (now : ℚ)
    (hd : ∀ r ∈ s.document_events, r.user_id ≠ uid)
    (hb : ∀ r ∈ s.blockchain_events, r.user_id ≠ uid) :
    documentsSummary s uid = ⟨0, 0, 0, 0, 0⟩ ∧
    blockchainSummary s uid = ⟨0, 0, 0, 0⟩ ∧
    documentTypes s uid = [] ∧
    recentActivity s uid now = [] ∧
    performanceTrend s uid now = [] := by
  have hdr : docRows s uid = [] :=
    List.filter_eq_nil_iff.mpr (by simpa using hd)
  have hbr : bcRows s uid = [] :=
    List.filter_eq_nil_iff.mpr (by simpa using hb)
  have hrr : recentRows s uid now = [] := by
    rw [recentRows]
    refine List.filter_eq_nil_iff.mpr ?_
    intro r hr
    simp [hd r hr]
  have hpr : s.document_events.filter (fun r =>
      decide (r.user_id = uid) &&
      decide (((⌊now⌋ : ℤ) : ℚ) - 7 ≤ r.created_at)) = [] := by
    refine List.filter_eq_nil_iff.mpr ?_
    intro r hr
    simp [hd r hr]
  refine ⟨?_, ?_, ?_, ?_, ?_⟩
  · simp [documentsSummary, hdr, sqlAvg, orZero, round2_zero]
  · simp [blockchainSummary, hbr, sqlAvg, sqlSum, orZero, round2_zero]
  · simp [documentTypes, docTypeGroups, hdr, dedupFirst, List.insertionSort]
  · simp [recentActivity, hrr, dedupFirst, List.insertionSort]
  · simp only [performanceTrend, hpr]
    simp [dedupFirst, List.insertionSort]

/-- Claim C7 witness: the empty store. -/
theorem user_analytics_zero_rows_witness :
    documentsSummary emptyStore "u" = ⟨0, 0, 0, 0, 0⟩ ∧
    blockchainSummary emptyStore "u" = ⟨0, 0, 0, 0⟩ ∧
    documentTypes emptyStore "u" = [] ∧
    recentActivity emptyStore "u" 0 = [] ∧
    performanceTrend emptyStore "u" 0 = [] :=
  user_analytics_zero_rows emptyStore "u" 0 (by simp [emptyStore])
    (by simp [emptyStore])




/-- Claim C4 counterexample: the system-wide average document generation time is
returned unrounded — at 1.239 s it is 1.239, which `round2` would move. -/
theorem system_avg_not_rounded :
    (getSystemAnalytics storeC4).avg_document_generation_time = 1239 / 1000 ∧
    round2 ((getSystemAnalytics storeC4).avg_document_generation_time) ≠
      (getSystemAnalytics storeC4).avg_document_generation_time := by
  have h : (getSystemAnalytics storeC4).avg_document_generation_time =
      1239 / 1000 := by
    simp [getSystemAnalytics, storeC4, mkDocRow, sqlAvg, orZero]
  refine ⟨h, ?_⟩
  rw [h]
  exact round2_ne_1239

/-- Claim C4 amended: the three user-level averages are already 2-decimal values
(rounding happened at the response boundary), while the system-wide
averages are returned without rounding (see the counterexample). -/
theorem user_averages_rounded (s : Store) (uid : String) (now : ℚ) :
    round2 ((documentsSummary s uid).avg_generation_time) =
      (documentsSummary s uid).avg_generation_time ∧
    round2 ((blockchainSummary s uid).avg_transaction_time) =
      (blockchainSummary s uid).avg_transaction_time ∧
    ∀ e ∈ performanceTrend s uid now, round2 e.2.1 = e.2.1 := by
  refine ⟨?_, ?_, ?_⟩
  · simp only [documentsSummary]
    exact round2_idem _
  · simp only [blockchainSummary]
    exact round2_idem _
  · intro e he
    simp only [performanceTrend, List.mem_insertionSort, List.mem_map] at he
    obtain ⟨d, hd, rfl⟩ := he
    exact round2_idem _

/-- Claim C4 witness: the rounded-invariance at a one-event store whose trend has
one entry. -/
theorem user_averages_rounded_witness :
    round2 ((0, round2 (5 / 2), 1) : ℤ × ℚ × ℕ).2.1 =
      ((0, round2 (5 / 2), 1) : ℤ × ℚ × ℕ).2.1 := by
  refine (user_averages_rounded storeC4w "u" 0).2.2 (0, round2 (5 / 2), 1) ?_
  have hfl : ⌊(0 : ℚ)⌋ = 0 := Int.floor_zero
  simp [performanceTrend, storeC4w, mkDocRow, dedupFirst, sqlAvg, orZero,
    List.insertionSort, List.orderedInsert, hfl]



end Analytics
